import Mathlib

set_option maxHeartbeats 1000000

/-!
Verification of `angr/analyses/aslr_detector.py` (class `ASLRDetector`).

The detector reconciles a concrete execution trace with the static model of
the same program: per loaded module it resolves the constant ASLR "slide"
(`trace_addr = model_addr + slide`), exposes bidirectional translation, and
an online comparator used during lockstep replay.

Shallow embedding conventions:
- Python integers are `Int`; `x & 0xFFF == 0` on a Python int is the same as
  `x % 0x1000 == 0` with a nonnegative remainder, which is `Int.emod`.
- Trace indexing is fallible (`List.getElem?`); a Python `IndexError`
  surfaces as `none` / `DetErr.indexError`.
- The external collaborators (the `cle` loader and the vex lifter) are
  packaged in an `Env` record; object identity (`is`) coincides with
  structural equality thanks to the `id` field carried by every object.
- The slide dictionary `_aslr_slides` is an insertion-ordered association
  list; its keys are `Option Obj` because `compare_addr` can insert the
  Python value `None` as a key (when `find_object_containing` returns it).
-/

namespace Aslr

/-- A loaded binary object as enumerated by the external loader (`cle`).
The `id` field models Python object identity, so structural equality of
`Obj` coincides with the identity tests (`is`) used by the source.
`custom_base_addr` models the truthiness of the `_custom_base_addr`
attribute tested by heuristic 2 of `_identify_aslr_slides`. -/
structure Obj where
  id : Nat
  binary_basename : String
  pic : Bool
  custom_base_addr : Bool
  entry : Int
  initializers : List Int
  is_main_bin : Bool
deriving DecidableEq

/-- Failure outcomes of the detector.  Each constructor corresponds to one
`raise` site of `aslr_detector.py` or a Python runtime error it can hit. -/
inductive DetErr where
  | indexError : DetErr
  | absentTrace : Obj → DetErr
  | ambiguousSlide : Obj → DetErr
  | cannotTranslate : DetErr
  | untranslated : DetErr
  | noOwningObject : DetErr
  | attributeError : DetErr
  | desyncObj : Obj → DetErr
  | desyncNoObj : Int → DetErr
deriving DecidableEq

/-- The external collaborators consumed by the detector: the loader
(`self.project.loader`) and the lifter
(`self.project.factory.block(addr).vex.constant_jump_targets`). -/
structure Env where
  all_objects : List Obj
  constant_jump_targets : Int → List Int
  find_object_containing : Int → Option Obj
  contains_addr : Obj → Int → Bool
  extern_object : Obj
  kernel_object : Obj

/-- The slide table `_aslr_slides`: a Python dict in insertion order. -/
abbrev Slides := List (Option Obj × Int)

/-- Dict lookup (`tbl[k]` / `k in tbl`). -/
def dictLookup (tbl : Slides) (k : Option Obj) : Option Int :=
  match tbl with
  | [] => none
  | (k2, v) :: rest => if k2 = k then some v else dictLookup rest k

/-- Dict update `tbl[k] = v`: overwrites in place, or appends a new entry. -/
def dictInsert (tbl : Slides) (k : Option Obj) (v : Int) : Slides :=
  match tbl with
  | [] => [(k, v)]
  | (k2, v2) :: rest =>
    if k2 = k then (k, v) :: rest else (k2, v2) :: dictInsert rest k v

/-- Model of `ASLRDetector._filter_idx`.  Validates candidate trace index
`idx` against model address `angr_addr`: with `slide = tr[idx] - angr_addr`,
either some statically known jump target slides exactly onto `tr[idx+1]`,
or (no known targets) the next trace step jumps further than `0x1000`.
Returns `none` when a trace access is out of bounds (Python `IndexError`);
note that `tr[idx + 1]` is read on every path of the source. -/
def filter_idx (env : Env) (tr : List Int) (angr_addr : Int) (idx : Nat) : Option Bool :=
  match tr[idx]?, tr[idx + 1]? with
  | some ti, some tn =>
    let slide := ti - angr_addr
    let legal_next := env.constant_jump_targets angr_addr
    some (if legal_next ≠ [] then
            legal_next.any fun a => decide (a + slide = tn)
          else
            decide (0x1000 < (ti - tn).natAbs))
  | _, _ => none

/-- The per-index condition of the scan loop inside `_locate_entry_point`:
`((addr - angr_addr) & 0xFFF) == 0 and (idx == 0 or abs(tr[idx-1] - addr) > threshold)`. -/
def scanCond (tr : List Int) (angr_addr : Int) (threshold : Nat) (idx : Nat) : Bool :=
  match tr[idx]? with
  | none => false
  | some addr =>
    decide ((addr - angr_addr) % 0x1000 = 0) &&
      (decide (idx = 0) ||
        match tr[idx - 1]? with
        | none => false
        | some prev => decide (threshold < (prev - addr).natAbs))

/-- One scan pass of `_locate_entry_point`: the `for idx, addr in
enumerate(self._trace)` loop collecting indices satisfying `scanCond`. -/
def scanPass (tr : List Int) (angr_addr : Int) (threshold : Nat) : List Nat :=
  (List.range tr.length).filter (scanCond tr angr_addr threshold)

/-- The filtering comprehension `{i for i in indices if self._filter_idx(angr_addr, i)}`;
`none` when some `_filter_idx` call raises `IndexError`. -/
def filterIndices (env : Env) (tr : List Int) (angr_addr : Int) :
    List Nat → Option (List Nat)
  | [] => some []
  | i :: rest =>
    match filter_idx env tr angr_addr i, filterIndices env tr angr_addr rest with
    | some b, some rest2 => some (if b then i :: rest2 else rest2)
    | _, _ => none

/-- The `while not indices and threshold > 0x2000` loop of
`_locate_entry_point`, entered with accumulator `indices` and the current
`threshold`; each iteration scans, filters and halves the threshold. -/
def locate_loop (env : Env) (tr : List Int) (angr_addr : Int)
    (indices : List Nat) (threshold : Nat) : Option (List Nat) :=
  if h : indices = [] ∧ 0x2000 < threshold then
    match filterIndices env tr angr_addr (scanPass tr angr_addr threshold) with
    | none => none
    | some filtered => locate_loop env tr angr_addr filtered (threshold / 2)
  else
    some indices
termination_by threshold
decreasing_by
  exact Nat.div_lt_self (Nat.lt_of_le_of_lt (Nat.zero_le _) h.2) (by decide)

/-- Model of `ASLRDetector._locate_entry_point`: the loop starts with an
empty index set and `threshold = 0x40000`. -/
def locate_entry_point (env : Env) (tr : List Int) (angr_addr : Int) :
    Option (List Nat) :=
  locate_loop env tr angr_addr [] 0x40000

/-- The adaptive search as the specification words it (section 4.4): a
bounded iterator over an explicit list of halving thresholds, stopping as
soon as the filtered index set is non-empty or the threshold list is
exhausted.  Used to compare the source's `while` loop against the spec's
bounded-pass description. -/
def locateBounded (env : Env) (tr : List Int) (angr_addr : Int) :
    List Nat → List Nat → Option (List Nat)
  | [], acc => some acc
  | th :: rest, acc =>
    if acc = [] then
      match filterIndices env tr angr_addr (scanPass tr angr_addr th) with
      | none => none
      | some f => locateBounded env tr angr_addr rest f
    else some acc

/-- Option-valued `List.map`, mirroring a Python comprehension that may
raise: `none` as soon as one element fails. -/
def mapOpt {α β : Type} (f : α → Option β) : List α → Option (List β)
  | [] => some []
  | x :: xs =>
    match f x, mapOpt f xs with
    | some y, some ys => some (y :: ys)
    | _, _ => none

/-- The slide set `{self._trace[idx] - entry for idx in indices}` built by
heuristic 3 of `_identify_aslr_slides`. -/
def slidesOf (tr : List Int) (entry : Int) (idxs : List Nat) : Option (Finset Int) :=
  match mapOpt (fun i => tr[i]?) idxs with
  | none => none
  | some addrs => some ((addrs.map (fun a => a - entry)).toFinset)

/-- Candidate slides for a single entry address: locate its occurrences in
the trace, then form the slide set. -/
def slideSetOf (env : Env) (tr : List Int) (entry : Int) : Option (Finset Int) :=
  match locate_entry_point env tr entry with
  | none => none
  | some idxs => slidesOf tr entry idxs

/-- The entry addresses heuristic 3 iterates over:
`obj.initializers + ([obj.entry] if obj.is_main_bin else [])`. -/
def entryAddrs (obj : Obj) : List Int :=
  obj.initializers ++ (if obj.is_main_bin then [obj.entry] else [])

/-- The `possibilities` accumulation loop of heuristic 3: `None` seeds on
the first entry address, later entry addresses narrow by set intersection.
The outer `Option` is a propagated `IndexError`. -/
def possLoop (env : Env) (tr : List Int) :
    List Int → Option (Finset Int) → Option (Option (Finset Int))
  | [], poss => some poss
  | e :: rest, poss =>
    match slideSetOf env tr e with
    | none => none
    | some slides =>
      possLoop env tr rest (some (match poss with
        | none => slides
        | some p => p ∩ slides))

/-- The final trichotomy of heuristic 3 on the computed `possibilities` set:
`len == 0` raises the absent-trace error, `len == 1` records the unique
slide (`next(iter(possibilities))`), otherwise raises the ambiguous-slide
error.  Stated on the sorted element list of `p` (a computable enumeration
of the set), whose length is `p.card`. -/
def resolvePoss (tbl : Slides) (obj : Obj) (p : Finset Int) : Except DetErr Slides :=
  match p.sort (· ≤ ·) with
  | [] => Except.error (DetErr.absentTrace obj)
  | [s] => Except.ok (dictInsert tbl (some obj) s)
  | _ :: _ :: _ => Except.error (DetErr.ambiguousSlide obj)

/-- The per-object body of the `for obj in self.project.loader.all_objects`
loop of `_identify_aslr_slides`: skip pseudo-objects, heuristic 1 (non-PIC),
heuristic 2 (custom base address), heuristic 3 (entry points in the trace).
Python's `obj.binary_basename.startswith("cle##")` is embedded as the
character-prefix test on the underlying character lists. -/
def processObj (env : Env) (tr : List Int) (tbl : Slides) (obj : Obj) :
    Except DetErr Slides :=
  if "cle##".data.isPrefixOf obj.binary_basename.data then Except.ok tbl
  else if !obj.pic then Except.ok (dictInsert tbl (some obj) 0)
  else if obj.custom_base_addr then Except.ok (dictInsert tbl (some obj) 0)
  else
    match possLoop env tr (entryAddrs obj) none with
    | none => Except.error DetErr.indexError
    | some none => Except.ok tbl
    | some (some p) => resolvePoss tbl obj p

/-- The object loop of `_identify_aslr_slides`. -/
def identifyLoop (env : Env) (tr : List Int) : List Obj → Slides → Except DetErr Slides
  | [], tbl => Except.ok tbl
  | obj :: rest, tbl =>
    match processObj env tr tbl obj with
    | Except.error e => Except.error e
    | Except.ok tbl2 => identifyLoop env tr rest tbl2

/-- Model of `ASLRDetector._identify_aslr_slides` (run at construction with
an empty slide table). -/
def identify_aslr_slides (env : Env) (tr : List Int) : Except DetErr Slides :=
  identifyLoop env tr env.all_objects []

/-- The tail of `translate_state_addr` once its local `obj` is bound:
`if obj not in self._aslr_slides: raise / return state_addr + slide`. -/
def translate_with_obj (tbl : Slides) (state_addr : Int) (obj : Option Obj) :
    Except DetErr Int :=
  match dictLookup tbl obj with
  | none => Except.error DetErr.cannotTranslate
  | some slide => Except.ok (state_addr + slide)

/-- Model of `ASLRDetector.translate_state_addr` (model space to trace
space).  `objArg = none` models the omitted default argument: the owning
object is then inferred with `find_object_containing`, and the table is
keyed by whatever that returns (possibly the Python value `None`). -/
def translate_state_addr (env : Env) (tbl : Slides) (state_addr : Int)
    (objArg : Option Obj) : Except DetErr Int :=
  translate_with_obj tbl state_addr
    (match objArg with
     | some o => some o
     | none => env.find_object_containing state_addr)

/-- The inference loop of `translate_trace_addr` when the object argument is
omitted: `for obj, slide in self._aslr_slides.items(): if
obj.contains_addr(trace_addr - slide): break / else: raise`.  A `None` key
reached by the scan raises a Python `AttributeError`
(`None.contains_addr`). -/
def findOwner (env : Env) (trace_addr : Int) : Slides → Except DetErr (Option Obj)
  | [] => Except.error DetErr.noOwningObject
  | (k, slide) :: rest =>
    match k with
    | none => Except.error DetErr.attributeError
    | some o =>
      if env.contains_addr o (trace_addr - slide) then Except.ok (some o)
      else findOwner env trace_addr rest

/-- Model of `ASLRDetector.translate_trace_addr` (trace space to model
space). -/
def translate_trace_addr (env : Env) (tbl : Slides) (trace_addr : Int)
    (objArg : Option Obj) : Except DetErr Int :=
  match (match objArg with
         | some o => Except.ok (some o)
         | none => findOwner env trace_addr tbl) with
  | Except.error e => Except.error e
  | Except.ok obj =>
    match dictLookup tbl obj with
    | none => Except.error DetErr.untranslated
    | some slide => Except.ok (trace_addr - slide)

/-- Model of `ASLRDetector.compare_addr`.  Returns the boolean answer
together with the (possibly mutated) slide table; errors are the two
trace-desync raises. -/
def compare_addr_with (env : Env) (tbl : Slides) (trace_addr state_addr : Int)
    (current_bin : Option Obj) : Except DetErr (Bool × Slides) :=
  if current_bin = some env.extern_object ∨ current_bin = some env.kernel_object then
    Except.ok (false, tbl)
  else
    match dictLookup tbl current_bin with
    | some current_slide =>
      Except.ok (decide (trace_addr = state_addr + current_slide), tbl)
    | none =>
      if (trace_addr - state_addr) % 0x1000 = 0 then
        Except.ok (true, dictInsert tbl current_bin (trace_addr - state_addr))
      else
        match current_bin with
        | some b => Except.error (DetErr.desyncObj b)
        | none => Except.error (DetErr.desyncNoObj state_addr)

/-- Model of `ASLRDetector.compare_addr` proper: binds the local
`current_bin` via the containment lookup and runs the body above. -/
def compare_addr (env : Env) (tbl : Slides) (trace_addr state_addr : Int) :
    Except DetErr (Bool × Slides) :=
  compare_addr_with env tbl trace_addr state_addr
    (env.find_object_containing state_addr)

/-- A PIC library object with one initializer at model address 0. -/
def objW : Obj :=
  { id := 0, binary_basename := "libw", pic := true, custom_base_addr := false,
    entry := 0, initializers := [0], is_main_bin := false }

/-- A non-PIC main object. -/
def objNP : Obj :=
  { id := 1, binary_basename := "mainw", pic := false, custom_base_addr := false,
    entry := 0, initializers := [], is_main_bin := true }

/-- A stand-in for the loader's extern pseudo-object. -/
def objExt : Obj :=
  { id := 100, binary_basename := "cle##externs", pic := true, custom_base_addr := false,
    entry := 0, initializers := [], is_main_bin := false }

/-- A stand-in for the loader's kernel pseudo-object. -/
def objKer : Obj :=
  { id := 101, binary_basename := "cle##kernel", pic := true, custom_base_addr := false,
    entry := 0, initializers := [], is_main_bin := false }

/-- A concrete environment whose containment lookup finds nothing. -/
def envW : Env :=
  { all_objects := [objW]
    constant_jump_targets := fun _ => [5]
    find_object_containing := fun _ => none
    contains_addr := fun _ _ => true
    extern_object := objExt
    kernel_object := objKer }

/-- Like `envW`, but the containment lookup always reports `objW`. -/
def envF : Env :=
  { envW with find_object_containing := fun _ => some objW }


/-! ### Unfolding lemmas for the adaptive-search loop -/

/-- One unfolding of the `while` loop when its guard can still hold. -/
theorem locate_loop_step (env : Env) (tr : List Int) (angr_addr : Int)
    (acc : List Nat) (th : Nat) (hth : 0x2000 < th) :
    locate_loop env tr angr_addr acc th =
      if acc = [] then
        match filterIndices env tr angr_addr (scanPass tr angr_addr th) with
        | none => none
        | some f => locate_loop env tr angr_addr f (th / 2)
      else some acc := by
  rw [locate_loop]
  by_cases hacc : acc = []
  · rw [dif_pos ⟨hacc, hth⟩, if_pos hacc]
  · rw [dif_neg (fun hc => hacc hc.1), if_neg hacc]

/-- The loop exits as soon as the threshold drops to `0x2000` or below. -/
theorem locate_loop_stop (env : Env) (tr : List Int) (angr_addr : Int)
    (acc : List Nat) (th : Nat) (hth : ¬ 0x2000 < th) :
    locate_loop env tr angr_addr acc th = some acc := by
  rw [locate_loop]
  exact dif_neg (fun hc => hth hc.2)

/-- One threshold level of the correspondence between the `while` loop and
the bounded pass list. -/
theorem locate_level (env : Env) (tr : List Int) (angr_addr : Int)
    (th : Nat) (rest : List Nat) (hth : 0x2000 < th)
    (ih : ∀ g : List Nat, locate_loop env tr angr_addr g (th / 2) =
          locateBounded env tr angr_addr rest g) :
    ∀ f : List Nat, locate_loop env tr angr_addr f th =
      locateBounded env tr angr_addr (th :: rest) f := by
  intro f
  rw [locate_loop_step env tr angr_addr f th hth]
  by_cases hf : f = []
  · rw [if_pos hf]
    show _ = locateBounded env tr angr_addr (th :: rest) f
    unfold locateBounded
    rw [if_pos hf]
    cases filterIndices env tr angr_addr (scanPass tr angr_addr th) with
    | none => rfl
    | some g => exact ih g
  · rw [if_neg hf]
    show _ = locateBounded env tr angr_addr (th :: rest) f
    unfold locateBounded
    rw [if_neg hf]

/-- The source's `while` loop started at `threshold = 0x40000` is exactly
the bounded iterator over the five thresholds
`0x40000, 0x20000, 0x10000, 0x8000, 0x4000`. -/
theorem locate_eq_bounded (env : Env) (tr : List Int) (angr_addr : Int) :
    locate_entry_point env tr angr_addr =
      locateBounded env tr angr_addr [0x40000, 0x20000, 0x10000, 0x8000, 0x4000] [] := by
  have h5 : ∀ g : List Nat, locate_loop env tr angr_addr g 0x2000 =
      locateBounded env tr angr_addr [] g := by
    intro g
    rw [locate_loop_stop env tr angr_addr g 0x2000 (by decide)]
    rfl
  have h4 := locate_level env tr angr_addr 0x4000 [] (by decide)
    (fun g => by rw [show (0x4000 : Nat) / 2 = 0x2000 from by norm_num]; exact h5 g)
  have h3 := locate_level env tr angr_addr 0x8000 [0x4000] (by decide)
    (fun g => by rw [show (0x8000 : Nat) / 2 = 0x4000 from by norm_num]; exact h4 g)
  have h2 := locate_level env tr angr_addr 0x10000 [0x8000, 0x4000] (by decide)
    (fun g => by rw [show (0x10000 : Nat) / 2 = 0x8000 from by norm_num]; exact h3 g)
  have h1 := locate_level env tr angr_addr 0x20000 [0x10000, 0x8000, 0x4000] (by decide)
    (fun g => by rw [show (0x20000 : Nat) / 2 = 0x10000 from by norm_num]; exact h2 g)
  have h0 := locate_level env tr angr_addr 0x40000 [0x20000, 0x10000, 0x8000, 0x4000]
    (by decide)
    (fun g => by rw [show (0x40000 : Nat) / 2 = 0x20000 from by norm_num]; exact h1 g)
  unfold locate_entry_point
  exact h0 []

/-- C2: for every entry address, `_locate_entry_point` terminates: starting
at threshold `0x40000`, it runs a scan pass, filters through the validator,
halves the threshold, and stops as soon as the filtered set is non-empty or
the threshold is at most `0x2000` — hence it is exactly a bounded iterator
over the five thresholds `0x40000, 0x20000, 0x10000, 0x8000, 0x4000`, i.e.
at most five scan passes. -/
theorem c2_locate_five_passes (env : Env) (tr : List Int) (angr_addr : Int) :
    locate_entry_point env tr angr_addr =
      locateBounded env tr angr_addr [0x40000, 0x20000, 0x10000, 0x8000, 0x4000] [] :=
  locate_eq_bounded env tr angr_addr

/-- C3: a single scan pass collects exactly the indices `i` with
`(tr[i] - angr_addr) % 0x1000 = 0` and (`i = 0` or
`|tr[i-1] - tr[i]| > threshold`). -/
theorem c3_scan_characterization (tr : List Int) (angr_addr : Int)
    (threshold : Nat) (i : Nat) :
    i ∈ scanPass tr angr_addr threshold ↔
      ∃ addr, tr[i]? = some addr ∧ (addr - angr_addr) % 0x1000 = 0 ∧
        (i = 0 ∨ ∃ prev, tr[i - 1]? = some prev ∧ threshold < (prev - addr).natAbs) := by
  unfold scanPass
  rw [List.mem_filter, List.mem_range]
  unfold scanCond
  constructor
  · rintro ⟨hlen, hcond⟩
    cases hg : tr[i]? with
    | none => rw [hg] at hcond; exact absurd hcond (by simp)
    | some addr =>
      rw [hg] at hcond
      simp only [Bool.and_eq_true, Bool.or_eq_true, decide_eq_true_eq] at hcond
      refine ⟨addr, rfl, hcond.1, ?_⟩
      rcases hcond.2 with h0 | hm
      · exact Or.inl h0
      · right
        cases hp : tr[i - 1]? with
        | none => rw [hp] at hm; exact absurd hm (by simp)
        | some prev =>
          rw [hp] at hm
          exact ⟨prev, rfl, by simpa using hm⟩
  · rintro ⟨addr, hg, hmod, hrest⟩
    have hlen : i < tr.length := by
      by_contra hge
      rw [List.getElem?_eq_none (Nat.le_of_not_lt hge)] at hg
      exact Option.noConfusion hg
    refine ⟨hlen, ?_⟩
    rw [hg]
    simp only [Bool.and_eq_true, Bool.or_eq_true, decide_eq_true_eq]
    refine ⟨hmod, ?_⟩
    rcases hrest with h0 | ⟨prev, hp, hgt⟩
    · exact Or.inl h0
    · right; rw [hp]; simpa using hgt

/-- Out-of-bounds propagation: `_filter_idx` reads `tr[idx + 1]` on every
path, so it fails whenever that access is out of bounds. -/
theorem filter_idx_oob (env : Env) (tr : List Int) (angr_addr : Int) (idx : Nat)
    (h : tr[idx + 1]? = none) :
    filter_idx env tr angr_addr idx = none := by
  unfold filter_idx
  rw [h]
  cases tr[idx]? <;> rfl

/-- C9: validation unconditionally reads `tr[idx + 1]`, hence is undefined
(raises) whenever `idx` is the last index; the scanner never inspects
`tr[i + 1]` and can select the last index, as the concrete trace
`[1, 0x50000]` with entry address `0` shows: index `1` (the last index)
survives the scan, and the whole search then fails with the out-of-bounds
access, for every environment. -/
theorem c9_oob_validation :
    (∀ (env : Env) (tr : List Int) (angr_addr : Int) (idx : Nat),
       tr[idx + 1]? = none → filter_idx env tr angr_addr idx = none) ∧
    (∀ env : Env,
       (1 ∈ scanPass [1, 0x50000] 0 0x40000 ∧ ([1, 0x50000] : List Int).length - 1 = 1) ∧
       locate_entry_point env [1, 0x50000] 0 = none) := by
  constructor
  · exact fun env tr a idx h => filter_idx_oob env tr a idx h
  · intro env
    refine ⟨⟨by decide, by decide⟩, ?_⟩
    rw [locate_eq_bounded]
    rfl

/-- Witness for C9 at a concrete environment and trace. -/
theorem c9_oob_validation_witness :
    filter_idx envW [1, 0x50000] 0 1 = none ∧
      locate_entry_point envW [1, 0x50000] 0 = none :=
  ⟨c9_oob_validation.1 envW [1, 0x50000] 0 1 rfl,
   (c9_oob_validation.2 envW).2⟩


/-! ### The resolver's intersection of per-entry candidate-slide sets -/

/-- Membership in a left fold of finite-set intersections. -/
theorem mem_foldl_inter (Ss : List (Finset Int)) :
    ∀ (acc : Finset Int) (s : Int),
      s ∈ Ss.foldl (fun p q => p ∩ q) acc ↔ s ∈ acc ∧ ∀ T ∈ Ss, s ∈ T := by
  induction Ss with
  | nil => intro acc s; simp
  | cons S Ss ih =>
    intro acc s
    rw [List.foldl_cons, ih]
    simp [Finset.mem_inter, and_assoc]

/-- The `possibilities` loop after seeding: when every remaining entry
address has an available slide set, the loop folds them into the
accumulator by intersection. -/
theorem possLoop_sets (env : Env) (tr : List Int) :
    ∀ (es : List Int) (Ss : List (Finset Int)) (acc : Finset Int),
      mapOpt (slideSetOf env tr) es = some Ss →
      possLoop env tr es (some acc) =
        some (some (Ss.foldl (fun p q => p ∩ q) acc)) := by
  intro es
  induction es with
  | nil =>
    intro Ss acc h
    unfold mapOpt at h
    injection h with h
    subst h
    rfl
  | cons e es ih =>
    intro Ss acc h
    unfold mapOpt at h
    cases hf : slideSetOf env tr e with
    | none => rw [hf] at h; exact absurd h (by simp)
    | some S =>
      rw [hf] at h
      cases hm : mapOpt (slideSetOf env tr) es with
      | none => rw [hm] at h; exact absurd h (by simp)
      | some Ss2 =>
        rw [hm] at h
        injection h with h
        subst h
        unfold possLoop
        rw [hf]
        exact ih Ss2 (acc ∩ S) hm

/-- C1: for a position-independent module without a pinned base address and
with at least one entry address, whose per-entry candidate-slide sets are
all available, slide resolution computes the intersection of those sets
(the first entry address seeds the accumulator, each later one narrows it
by intersection) and then: raises the absent-trace error when the
intersection is empty, records the unique element as the slide when it is a
singleton, and raises the ambiguous-slide error when it has more than one
element. -/
theorem c1_resolver_intersection (env : Env) (tr : List Int) (tbl : Slides)
    (obj : Obj) (e : Int) (es : List Int) (S : Finset Int) (Ss : List (Finset Int))
    (hcle : "cle##".data.isPrefixOf obj.binary_basename.data = false)
    (hpic : obj.pic = true)
    (hcb : obj.custom_base_addr = false)
    (hent : entryAddrs obj = e :: es)
    (hS : slideSetOf env tr e = some S)
    (hSs : mapOpt (slideSetOf env tr) es = some Ss) :
    (∀ s, s ∈ Ss.foldl (fun p q => p ∩ q) S ↔ (s ∈ S ∧ ∀ T ∈ Ss, s ∈ T)) ∧
    (Ss.foldl (fun p q => p ∩ q) S = ∅ →
      processObj env tr tbl obj = Except.error (DetErr.absentTrace obj)) ∧
    (∀ s, Ss.foldl (fun p q => p ∩ q) S = {s} →
      processObj env tr tbl obj = Except.ok (dictInsert tbl (some obj) s)) ∧
    (1 < (Ss.foldl (fun p q => p ∩ q) S).card →
      processObj env tr tbl obj = Except.error (DetErr.ambiguousSlide obj)) := by
  have hposs : possLoop env tr (entryAddrs obj) none =
      some (some (Ss.foldl (fun p q => p ∩ q) S)) := by
    rw [hent]
    unfold possLoop
    rw [hS]
    exact possLoop_sets env tr es Ss S hSs
  have hpo : processObj env tr tbl obj =
      resolvePoss tbl obj (Ss.foldl (fun p q => p ∩ q) S) := by
    unfold processObj
    rw [hcle, hpic, hcb, hposs]
    rfl
  refine ⟨fun s => mem_foldl_inter Ss S s, ?_, ?_, ?_⟩
  · intro hP
    rw [hpo, hP]
    unfold resolvePoss
    rw [Finset.sort_empty]
  · intro s hP
    rw [hpo, hP]
    unfold resolvePoss
    rw [Finset.sort_singleton]
  · intro hcard
    rw [hpo]
    unfold resolvePoss
    have hlen : ((Ss.foldl (fun p q => p ∩ q) S).sort (· ≤ ·)).length =
        (Ss.foldl (fun p q => p ∩ q) S).card := Finset.length_sort _
    cases hl : (Ss.foldl (fun p q => p ∩ q) S).sort (· ≤ ·) with
    | nil =>
      exfalso
      rw [hl] at hlen
      simp at hlen
      omega
    | cons a l =>
      cases l with
      | nil =>
        exfalso
        rw [hl] at hlen
        simp at hlen
        omega
      | cons b l2 => rfl

/-- Evaluation of the candidate-slide set for `envW` on the trace `[0, 5]`
with entry address `0`: the scan keeps only index `0` and the validator
accepts it, so the only candidate slide is `0`. -/
theorem locate_envW_eval : locate_entry_point envW [0, 5] 0 = some [0] := by
  rw [locate_eq_bounded]
  decide

/-- Conditional unfolding of `slideSetOf` on a successful search. -/
theorem slideSetOf_eq_some (env : Env) (tr : List Int) (entry : Int) (idxs : List Nat)
    (h : locate_entry_point env tr entry = some idxs) :
    slideSetOf env tr entry = slidesOf tr entry idxs := by
  unfold slideSetOf
  rw [h]

/-- Hence the candidate-slide set for entry address `0` is the singleton
`{0}`. -/
theorem slideSetOf_envW : slideSetOf envW [0, 5] 0 = some {0} :=
  Eq.trans (slideSetOf_eq_some envW [0, 5] 0 [0] locate_envW_eval) (by decide)

/-- Witness for C1 at a concrete module, environment and trace. -/
theorem c1_resolver_intersection_witness :
    processObj envW [0, 5] [] objW = Except.ok [(some objW, 0)] := by
  have h := c1_resolver_intersection envW [0, 5] [] objW 0 [] {0} []
    (by decide) rfl rfl rfl slideSetOf_envW rfl
  exact h.2.2.1 0 rfl

/-- C5: a module that is not position-independent, or one that is
position-independent but has a pinned (custom) base address, resolves to
slide exactly 0, for every trace (no trace search can influence the
result). -/
theorem c5_fastpath_zero (env : Env) (tr : List Int) (tbl : Slides) (obj : Obj)
    (hcle : "cle##".data.isPrefixOf obj.binary_basename.data = false)
    (h : obj.pic = false ∨ obj.custom_base_addr = true) :
    processObj env tr tbl obj = Except.ok (dictInsert tbl (some obj) 0) := by
  unfold processObj
  rcases h with h | h
  · rw [hcle, h]
    rfl
  · rw [hcle, h]
    cases hp : obj.pic
    · rfl
    · rfl

/-- Witness for C5: the non-PIC object `objNP` resolves to slide 0. -/
theorem c5_fastpath_zero_witness :
    processObj envW [0, 5] [] objNP = Except.ok [(some objNP, 0)] :=
  c5_fastpath_zero envW [0, 5] [] objNP (by decide) (Or.inl rfl)


/-! ### The successor validator -/

/-- Evaluation of `_filter_idx` at an in-bounds index. -/
theorem filter_idx_eval (env : Env) (tr : List Int) (angr_addr : Int)
    (idx : Nat) (ti tn : Int)
    (h1 : tr[idx]? = some ti) (h2 : tr[idx + 1]? = some tn) :
    filter_idx env tr angr_addr idx =
      some (if env.constant_jump_targets angr_addr ≠ [] then
              (env.constant_jump_targets angr_addr).any
                fun a => decide (a + (ti - angr_addr) = tn)
            else decide (0x1000 < (ti - tn).natAbs)) := by
  unfold filter_idx
  rw [h1, h2]

/-- C4: with `slide = tr[idx] - angr_addr`, validation is defined at an
in-bounds index and succeeds iff either some statically known successor
slides exactly onto `tr[idx+1]` (when the lifter reports a non-empty set),
or `|tr[idx] - tr[idx+1]| > 0x1000` (when the lifter reports none). -/
theorem c4_filter_characterization (env : Env) (tr : List Int) (angr_addr : Int)
    (idx : Nat) (ti tn : Int)
    (h1 : tr[idx]? = some ti) (h2 : tr[idx + 1]? = some tn) :
    (filter_idx env tr angr_addr idx).isSome = true ∧
    (env.constant_jump_targets angr_addr ≠ [] →
      (filter_idx env tr angr_addr idx = some true ↔
        ∃ t ∈ env.constant_jump_targets angr_addr, t + (ti - angr_addr) = tn)) ∧
    (env.constant_jump_targets angr_addr = [] →
      (filter_idx env tr angr_addr idx = some true ↔ 0x1000 < (ti - tn).natAbs)) := by
  have hfe := filter_idx_eval env tr angr_addr idx ti tn h1 h2
  refine ⟨?_, ?_, ?_⟩
  · rw [hfe]
    rfl
  · intro hne
    rw [hfe, if_pos hne]
    simp only [Option.some.injEq, List.any_eq_true, decide_eq_true_eq]
  · intro he
    rw [hfe, if_neg (fun hc => hc he)]
    simp only [Option.some.injEq, decide_eq_true_eq]

/-- Witness for C4: on the trace `[0, 5]` with entry `0`, the lifter of
`envW` reports the successor `5`, which slides (by 0) onto the next trace
entry, so index `0` validates. -/
theorem c4_filter_characterization_witness :
    filter_idx envW [0, 5] 0 0 = some true := by
  have h := c4_filter_characterization envW [0, 5] 0 0 0 5 rfl rfl
  exact (h.2.1 (by decide)).mpr ⟨5, by decide, by decide⟩

/-! ### The address translator -/

/-- Successful bind in the `Except` monad. -/
theorem except_bind_ok {α β : Type} (x : α) (f : α → Except DetErr β) :
    (Except.ok x >>= f) = f x := rfl

/-- Trace-to-model translation with an explicit, resolved module. -/
theorem translate_trace_addr_obj (env : Env) (tbl : Slides) (x : Int) (m : Obj) (S : Int)
    (h : dictLookup tbl (some m) = some S) :
    translate_trace_addr env tbl x (some m) = Except.ok (x - S) := by
  show (match dictLookup tbl (some m) with
        | none => Except.error DetErr.untranslated
        | some slide => Except.ok (x - slide)) = Except.ok (x - S)
  rw [h]

/-- Model-to-trace translation with an explicit, resolved module. -/
theorem translate_state_addr_obj (env : Env) (tbl : Slides) (x : Int) (m : Obj) (S : Int)
    (h : dictLookup tbl (some m) = some S) :
    translate_state_addr env tbl x (some m) = Except.ok (x + S) := by
  show translate_with_obj tbl x (some m) = _
  unfold translate_with_obj
  rw [h]

/-- C6: for a module with a slide entry and an address in its trace-space
range, translating trace-to-model, then model-to-trace, then trace-to-model
again gives the same result as a single trace-to-model translation. -/
theorem c6_round_trip (env : Env) (tbl : Slides) (m : Obj) (a : Int) (S : Int)
    (h : dictLookup tbl (some m) = some S)
    (hr : env.contains_addr m (a - S) = true) :
    (do
      let v ← translate_trace_addr env tbl a (some m)
      let w ← translate_state_addr env tbl v (some m)
      translate_trace_addr env tbl w (some m)) =
    translate_trace_addr env tbl a (some m) := by
  simp only [translate_trace_addr_obj env tbl _ m S h,
    translate_state_addr_obj env tbl _ m S h, except_bind_ok]
  rw [show a - S + S = a from by omega]

/-- Witness for C6 with slide 7 and trace address 20. -/
theorem c6_round_trip_witness :
    (do
      let v ← translate_trace_addr envW [(some objW, 7)] 20 (some objW)
      let w ← translate_state_addr envW [(some objW, 7)] v (some objW)
      translate_trace_addr envW [(some objW, 7)] w (some objW)) =
    translate_trace_addr envW [(some objW, 7)] 20 (some objW) :=
  c6_round_trip envW [(some objW, 7)] objW 20 7 rfl rfl

/-! ### The runtime comparator -/

/-- C7: comparing against a module that is already resolved with slide `S`
(and is not the extern or kernel pseudo-module) answers
`trace_addr - state_addr = S` and leaves the slide table unchanged. -/
theorem c7_compare_resolved (env : Env) (tbl : Slides) (m : Obj) (t s S : Int)
    (hfind : env.find_object_containing s = some m)
    (hx : m ≠ env.extern_object) (hk : m ≠ env.kernel_object)
    (hS : dictLookup tbl (some m) = some S) :
    ∃ b : Bool, compare_addr env tbl t s = Except.ok (b, tbl) ∧
      (b = true ↔ t - s = S) := by
  have hne : ¬ (some m = some env.extern_object ∨ some m = some env.kernel_object) := by
    rintro (hc | hc)
    · injection hc with hc; exact hx hc
    · injection hc with hc; exact hk hc
  have hcmp : compare_addr env tbl t s = Except.ok (decide (t = s + S), tbl) := by
    unfold compare_addr
    rw [hfind]
    unfold compare_addr_with
    rw [if_neg hne, hS]
  refine ⟨decide (t = s + S), hcmp, ?_⟩
  simp only [decide_eq_true_eq]
  omega

/-- Witness for C7: slide 7, trace address 12, model address 5. -/
theorem c7_compare_resolved_witness :
    ∃ b : Bool, compare_addr envF [(some objW, 7)] 12 5 =
        Except.ok (b, [(some objW, 7)]) ∧ (b = true ↔ (12 : Int) - 5 = 7) :=
  c7_compare_resolved envF [(some objW, 7)] objW 12 5 7 rfl (by decide) (by decide) rfl

/-- C10: when no module at all owns the model address and the no-module key
has no slide entry yet, a page-aligned difference is recorded into the
table under that key and `compare_addr` answers true; the
no-library-mapped desync error is reached only when the difference is not
page-aligned. -/
theorem c10_compare_no_module (env : Env) (tbl : Slides) (t s : Int)
    (hfind : env.find_object_containing s = none)
    (hnone : dictLookup tbl none = none) :
    ((t - s) % 0x1000 = 0 →
      compare_addr env tbl t s = Except.ok (true, dictInsert tbl none (t - s))) ∧
    ((t - s) % 0x1000 ≠ 0 →
      compare_addr env tbl t s = Except.error (DetErr.desyncNoObj s)) := by
  have hne : ¬ ((none : Option Obj) = some env.extern_object ∨
      (none : Option Obj) = some env.kernel_object) := by
    rintro (hc | hc) <;> exact Option.noConfusion hc
  have hbase : ∀ r, compare_addr_with env tbl t s none = r →
      compare_addr env tbl t s = r := by
    intro r hr
    unfold compare_addr
    rw [hfind]
    exact hr
  constructor
  · intro hal
    apply hbase
    unfold compare_addr_with
    rw [if_neg hne, hnone, if_pos hal]
  · intro hal
    apply hbase
    unfold compare_addr_with
    rw [if_neg hne, hnone, if_neg hal]

/-- Witness for C10: difference 4096 is page-aligned, so it is recorded
under the no-module key. -/
theorem c10_compare_no_module_witness :
    compare_addr envW [] 4096 0 = Except.ok (true, [(none, 4096)]) :=
  (c10_compare_no_module envW [] 4096 0 rfl rfl).1 (by decide)

/-- C8 counterexample: with an empty slide table and a containment lookup
that finds no module, `translate_state_addr` with the module omitted fails
with the unresolved-module error (`cannotTranslate`), not with the distinct
no-owning-module error claimed for it. -/
theorem c8_counterexample :
    translate_state_addr envW [] 5 none = Except.error DetErr.cannotTranslate ∧
      DetErr.cannotTranslate ≠ DetErr.noOwningObject :=
  ⟨rfl, by decide⟩

/-- C8 (amended): with the module omitted, `translate_state_addr` infers
the owning module via the loader's containment lookup at the model address
(not by scanning the slide table); it returns `model + slide` when the
inferred result has a slide entry, and fails with the unresolved-module
error both when the inferred module has no entry and when no module is
found; it never raises the no-owning-module error, which belongs to
`translate_trace_addr`. -/
theorem c8_translate_state_inference (env : Env) (tbl : Slides) (a : Int) :
    (∀ m S, env.find_object_containing a = some m →
      dictLookup tbl (some m) = some S →
      translate_state_addr env tbl a none = Except.ok (a + S)) ∧
    (∀ m, env.find_object_containing a = some m →
      dictLookup tbl (some m) = none →
      translate_state_addr env tbl a none = Except.error DetErr.cannotTranslate) ∧
    (env.find_object_containing a = none → dictLookup tbl none = none →
      translate_state_addr env tbl a none = Except.error DetErr.cannotTranslate) ∧
    (∀ x : Int, translate_state_addr env tbl x none ≠
      Except.error DetErr.noOwningObject) := by
  refine ⟨?_, ?_, ?_, ?_⟩
  · intro m S hm hS
    show translate_with_obj tbl a (env.find_object_containing a) = _
    rw [hm]
    unfold translate_with_obj
    rw [hS]
  · intro m hm hS
    show translate_with_obj tbl a (env.find_object_containing a) = _
    rw [hm]
    unfold translate_with_obj
    rw [hS]
  · intro hm hS
    show translate_with_obj tbl a (env.find_object_containing a) = _
    rw [hm]
    unfold translate_with_obj
    rw [hS]
  · intro x
    show translate_with_obj tbl x (env.find_object_containing x) ≠ _
    unfold translate_with_obj
    cases dictLookup tbl (env.find_object_containing x) <;> simp

/-- Witness for the amended C8: inference finds `objW`, whose slide is 7,
so model address 5 translates to 12. -/
theorem c8_translate_state_inference_witness :
    translate_state_addr envF [(some objW, 7)] 5 none = Except.ok 12 :=
  (c8_translate_state_inference envF [(some objW, 7)] 5).1 objW 7 rfl rfl

end Aslr
